import Mathlib

/-!
Shallow embedding of the foco-timer session state machine.

The repository holds two variants of the same React component
(src/src/App.tsx and a second unnamed copy).  Both drive a record of
state fields (focusDuration, breakDuration, mode, status, timeLeft,
completionMessage, deadline); user actions and the timer effect are
plain functions on that record.  We embed the state record as
`Session`, each handler as a function `Session → Session` (with the
current wall clock passed explicitly where the code calls Date.now()),
and the localStorage load effect as a function on a model of the
stored value.  `mode` and `status` stay `String`s, exactly as in the
source (useState with string literals and === comparisons).
Timestamps and durations are `Int` (JS numbers used integrally here).
-/

structure Session where
  focusDuration : Int
  breakDuration : Int
  mode : String
  status : String
  timeLeft : Int
  completionMessage : String
  deadline : Option Int
deriving Repr, DecidableEq

/-- Initial in-memory state of src/src/App.tsx: useState(50), useState(10),
useState("focus"), useState("idle"), useState(focusDuration * 60),
useState(""), useState(null). -/
def defaultSession : Session :=
  { focusDuration := 50
    breakDuration := 10
    mode := "focus"
    status := "idle"
    timeLeft := 50 * 60
    completionMessage := ""
    deadline := none }

/-- JS Math.round(ms / 1000) for an integer number of milliseconds:
Math.round(x) is the floor of x + 1/2, so the result is
the floor of (2 * ms + 1000) / 2000. -/
def jsRound1000 (ms : Int) : Int :=
  Int.fdiv (2 * ms + 1000) 2000

/-- JS parseInt(str, 10): skip leading whitespace, optional sign, then the
longest leading run of decimal digits; no digits gives NaN (modelled as
`none`).  Trailing non-digit characters are ignored, as in JS. -/
def jsParseInt (s : String) : Option Int :=
  let cs := s.data.dropWhile Char.isWhitespace
  let neg : Bool := cs.head? == some '-'
  let rest := if cs.head? == some '-' || cs.head? == some '+' then cs.drop 1 else cs
  let digits := rest.takeWhile Char.isDigit
  if digits.isEmpty then none
  else
    let n : Nat := digits.foldl (fun acc c => acc * 10 + (c.toNat - 48)) 0
    some (if neg then -(n : Int) else (n : Int))

/-- The expression `parseInt(e.target.value, 10) || 1` of the duration
handlers: NaN and 0 are falsy and become 1; every other integer (negative
ones included) is kept. -/
def jsParseIntOr1 (s : String) : Int :=
  match jsParseInt s with
  | none => 1
  | some v => if v = 0 then 1 else v

/-- startTimer: setCompletionMessage(""); setStatus("running");
setDeadline(Date.now() + timeLeft * 1000). -/
def startTimer (now : Int) (s : Session) : Session :=
  { s with
    completionMessage := ""
    status := "running"
    deadline := some (now + s.timeLeft * 1000) }

/-- togglePause: running goes to paused clearing the deadline; paused goes
to running with deadline Date.now() + timeLeft * 1000; any other status is
returned unchanged. -/
def togglePause (now : Int) (s : Session) : Session :=
  if s.status = "running" then
    { s with status := "paused", deadline := none }
  else if s.status = "paused" then
    { s with status := "running", deadline := some (now + s.timeLeft * 1000) }
  else
    s

/-- resetTimer: status idle, deadline null, message cleared, timeLeft
restored to the configured duration of the current mode. -/
def resetTimer (s : Session) : Session :=
  { s with
    status := "idle"
    deadline := none
    completionMessage := ""
    timeLeft := (if s.mode = "focus" then s.focusDuration else s.breakDuration) * 60 }

/-- resetToStart of src/src/App.tsx: mode focus, status idle, deadline
null, message cleared, timeLeft = focusDuration * 60 (the configured
focus duration itself is kept). -/
def resetToStart (s : Session) : Session :=
  { s with
    mode := "focus"
    status := "idle"
    deadline := none
    completionMessage := ""
    timeLeft := s.focusDuration * 60 }

/-- handleTimerCompletion of src/src/App.tsx.  The second component
records the sound command issued: `none` when no tone is requested,
`some loop` when a tone with the given loop flag is requested.  The
Tone.js synth of this variant plays a single 0.5 s note, i.e. a
non-looping tone, so the break branch yields `some false`. -/
def handleTimerCompletion (s : Session) : Session × Option Bool :=
  if s.mode = "focus" then
    ({ s with
        deadline := none
        status := "idle"
        mode := "break"
        completionMessage := "Foco finalizado"
        timeLeft := s.breakDuration * 60 }, none)
  else
    ({ s with
        deadline := none
        status := "idle"
        mode := "focus"
        completionMessage := "Fim da pausa"
        timeLeft := s.focusDuration * 60 }, some false)

/-- handleTimerCompletion of the second variant (src/unnamed/part_000):
the focus branch also resets breakDuration to 10; the break branch calls
playSound(true) (a looping tone), resets both durations to the fixed
defaults 30 and 10, and clears the completion message. -/
def handleTimerCompletionV (s : Session) : Session × Option Bool :=
  if s.mode = "focus" then
    ({ s with
        deadline := none
        status := "idle"
        breakDuration := 10
        mode := "break"
        completionMessage := "Foco finalizado"
        timeLeft := 10 * 60 }, none)
  else
    ({ s with
        deadline := none
        status := "idle"
        focusDuration := 30
        breakDuration := 10
        mode := "focus"
        completionMessage := ""
        timeLeft := 30 * 60 }, some true)

/-- The timer useEffect body (identical in both variants): when
timeLeft <= 0 and status is running it runs handleTimerCompletion and
returns early (no interval is installed).  The middle component is the
sound command, the last component records whether a completion
transition was performed on this run. -/
def timerEffect (s : Session) : Session × Option Bool × Bool :=
  if s.timeLeft ≤ 0 ∧ s.status = "running" then
    ((handleTimerCompletion s).1, (handleTimerCompletion s).2, true)
  else
    (s, none, false)

/-- The setInterval callback, installed only when status is running and
deadline is truthy: setTimeLeft(Math.max(0, Math.round((deadline -
Date.now()) / 1000))). -/
def tickInterval (now : Int) (s : Session) : Session :=
  match s.deadline with
  | some d =>
      if s.status = "running" ∧ d ≠ 0 then
        { s with timeLeft := max 0 (jsRound1000 (d - now)) }
      else s
  | none => s

/-- updateFocusDuration: value = parseInt(input, 10) || 1;
setFocusDuration(value); if idle and in focus mode also
setTimeLeft(value * 60). -/
def updateFocusDuration (input : String) (s : Session) : Session :=
  let value := jsParseIntOr1 input
  { s with
    focusDuration := value
    timeLeft := if s.status = "idle" ∧ s.mode = "focus" then value * 60 else s.timeLeft }

/-- updateBreakDuration: value = parseInt(input, 10) || 1;
setBreakDuration(value); if idle and in break mode also
setTimeLeft(value * 60). -/
def updateBreakDuration (input : String) (s : Session) : Session :=
  let value := jsParseIntOr1 input
  { s with
    breakDuration := value
    timeLeft := if s.status = "idle" ∧ s.mode = "break" then value * 60 else s.timeLeft }

/-- A parsed JSON snapshot as the load effect reads it: each field may be
absent (JS undefined, modelled `none`).  A JSON null deadline behaves
exactly like an absent one everywhere the code uses it (only a truthiness
test), so `none` covers both. -/
structure RawSnapshot where
  focusDuration : Option Int
  breakDuration : Option Int
  mode : Option String
  status : Option String
  timeLeft : Option Int
  completionMessage : Option String
  deadline : Option Int
deriving Repr, DecidableEq

/-- JS `x || d` where x is a possibly-undefined number field: undefined
and 0 are falsy. -/
def orIntTruthy (v : Option Int) (d : Int) : Int :=
  match v with
  | none => d
  | some x => if x = 0 then d else x

/-- JS `x || d` where x is a possibly-undefined string field: undefined
and "" are falsy. -/
def orStrTruthy (v : Option String) (d : String) : String :=
  match v with
  | none => d
  | some x => if x = "" then d else x

/-- The body of the load useEffect of src/src/App.tsx applied to a
successfully parsed snapshot object, starting from the current in-memory
state `s` (the defaults, on mount).  Follows the source line by line:
field defaults via ||, then the running branch when
savedState.status === "running" and savedState.deadline is truthy,
otherwise the paused/idle branch. -/
def loadRecord (r : RawSnapshot) (now : Int) (s : Session) : Session :=
  let s1 : Session :=
    { s with
      focusDuration := orIntTruthy r.focusDuration 50
      breakDuration := orIntTruthy r.breakDuration 10
      mode := orStrTruthy r.mode "focus"
      completionMessage := orStrTruthy r.completionMessage "" }
  let pausedOrIdle : Session :=
    { s1 with
      status := orStrTruthy r.status "idle"
      timeLeft := match r.timeLeft with
        | some t => t
        | none => orIntTruthy r.focusDuration 50 * 60
      deadline := none }
  match r.deadline with
  | some d =>
      if r.status = some "running" ∧ d ≠ 0 then
        let remaining := d - now
        if remaining > 0 then
          { s1 with
            timeLeft := jsRound1000 remaining
            status := "running"
            deadline := some d }
        else
          { s1 with
            timeLeft := 0
            status := "running"
            deadline := some d }
      else pausedOrIdle
  | none => pausedOrIdle

/-- The possible contents of the persisted key as the load effect sees
them: absent; a string JSON.parse throws on; the string "null" (parse
succeeds, the first property access on null throws, caught before any
state was written); a JSON value that is not an object (every property
access yields undefined, no throw); or an object with optional fields. -/
inductive StoredState where
  | absent
  | invalidJson
  | jnull
  | nonObject
  | record (r : RawSnapshot)
deriving Repr, DecidableEq

/-- A snapshot with every field undefined: how a parsed non-object value
behaves under property access. -/
def emptyRaw : RawSnapshot :=
  { focusDuration := none
    breakDuration := none
    mode := none
    status := none
    timeLeft := none
    completionMessage := none
    deadline := none }

/-- The whole load useEffect: the resulting state together with whether
localStorage.removeItem was called (the catch branch).  The catch fires
exactly when JSON.parse throws or the parsed value is null (property
access throws); in both cases no setter has run yet, so the state is
left as it was. -/
def loadEffect (stored : StoredState) (now : Int) (s : Session) : Session × Bool :=
  match stored with
  | .absent => (s, false)
  | .invalidJson => (s, true)
  | .jnull => (s, true)
  | .nonObject => (loadRecord emptyRaw now s, false)
  | .record r => (loadRecord r now s, false)

/-- The snapshot the save useEffect writes for a session: every field
present, deadline serialized as null (here: kept as the Option) when
absent. -/
def snapshotOf (s : Session) : RawSnapshot :=
  { focusDuration := some s.focusDuration
    breakDuration := some s.breakDuration
    mode := some s.mode
    status := some s.status
    timeLeft := some s.timeLeft
    completionMessage := some s.completionMessage
    deadline := s.deadline }

/-- The invariant of claim C1: the deadline field is set exactly when the
status is running. -/
def DeadlineInv (s : Session) : Prop :=
  s.deadline.isSome = true ↔ s.status = "running"

/-- Auxiliary strengthening: any deadline the session holds is a positive
timestamp (deadlines are created as Date.now() + timeLeft * 1000, and the
load branch tests the stored deadline for truthiness, so positivity is
what makes the truthiness test agree with presence). -/
def DeadlinePos (s : Session) : Prop :=
  ∀ d : Int, s.deadline = some d → 0 < d

instance : Decidable (DeadlineInv s) := by
  unfold DeadlineInv; infer_instance

theorem jsRound1000_eq_ediv (ms : Int) : jsRound1000 ms = (2 * ms + 1000) / 2000 :=
  Int.fdiv_eq_ediv _ (by norm_num)

theorem jsRound1000_mul1000 (k : Int) : jsRound1000 (k * 1000) = k := by
  rw [jsRound1000_eq_ediv]; omega

theorem jsRound1000_nonneg (ms : Int) (h : 0 ≤ ms) : 0 ≤ jsRound1000 ms := by
  rw [jsRound1000_eq_ediv]; omega

theorem orIntTruthy_nonneg (v : Option Int) (d : Int) (hd : 0 ≤ d)
    (hv : ∀ n, v = some n → 0 ≤ n) : 0 ≤ orIntTruthy v d := by
  unfold orIntTruthy
  cases v with
  | none => exact hd
  | some x =>
      by_cases hx : x = 0
      · simp [hx]; exact hd
      · simp [hx]; exact hv x rfl

theorem loadRecord_running (r : RawSnapshot) (now d : Int) (s : Session)
    (hst : r.status = some "running") (hd : r.deadline = some d) (hd0 : d ≠ 0) :
    (loadRecord r now s).status = "running" ∧
    (loadRecord r now s).deadline = some d ∧
    (loadRecord r now s).timeLeft = if d - now > 0 then jsRound1000 (d - now) else 0 := by
  unfold loadRecord
  rw [hd, hst]
  by_cases hc : d - now > 0
  · simp [hd0, hc]
  · simp [hd0, hc]

/-- C10: a pause/resume toggle on an idle session changes nothing at all. -/
theorem c10_toggle_idle_noop (s : Session) (now : Int) (h : s.status = "idle") :
    togglePause now s = s := by
  unfold togglePause
  rw [h]
  simp

theorem c10_witness : togglePause 1 defaultSession = defaultSession :=
  c10_toggle_idle_noop defaultSession 1 rfl

/-- C5: pausing a running session keeps timeLeft, and resuming keeps it
again, ending running with deadline = resumeNow + timeLeft * 1000. -/
theorem c5_pause_resume_preserves (s : Session) (n1 n2 : Int) (h : s.status = "running") :
    (togglePause n1 s).timeLeft = s.timeLeft ∧
    (togglePause n1 s).status = "paused" ∧
    (togglePause n2 (togglePause n1 s)).timeLeft = s.timeLeft ∧
    (togglePause n2 (togglePause n1 s)).status = "running" ∧
    (togglePause n2 (togglePause n1 s)).deadline = some (n2 + s.timeLeft * 1000) := by
  unfold togglePause
  rw [h]
  simp

theorem c5_witness :
    (togglePause 7 (togglePause 3 { defaultSession with status := "running", deadline := some 99 })).timeLeft
      = ({ defaultSession with status := "running", deadline := some 99 } : Session).timeLeft ∧
    (togglePause 7 (togglePause 3 { defaultSession with status := "running", deadline := some 99 })).deadline
      = some (7 + ({ defaultSession with status := "running", deadline := some 99 } : Session).timeLeft * 1000) := by
  have h := c5_pause_resume_preserves { defaultSession with status := "running", deadline := some 99 } 3 7 rfl
  exact ⟨h.2.2.1, h.2.2.2.2⟩

/-- C6: starting an idle session with timeLeft = t clears the completion
message, sets status running and deadline = now + t * 1000, and an
immediate recomputation from that deadline (the interval callback at the
same instant) yields timeLeft = t again. -/
theorem c6_start_sets_deadline (s : Session) (now : Int)
    (hidle : s.status = "idle") (ht : 0 ≤ s.timeLeft) (hnow : 0 < now) :
    (startTimer now s).completionMessage = "" ∧
    (startTimer now s).status = "running" ∧
    (startTimer now s).deadline = some (now + s.timeLeft * 1000) ∧
    (tickInterval now (startTimer now s)).timeLeft = s.timeLeft := by
  refine ⟨rfl, rfl, rfl, ?_⟩
  have hd : now + s.timeLeft * 1000 ≠ 0 := by omega
  show (tickInterval now (startTimer now s)).timeLeft = s.timeLeft
  unfold startTimer tickInterval
  simp only [hd, ne_eq, not_false_eq_true, and_true, and_self, if_true, true_and]
  have h1 : now + s.timeLeft * 1000 - now = s.timeLeft * 1000 := by ring
  simp only [h1, jsRound1000_mul1000]
  omega

theorem c6_witness :
    (startTimer 17 defaultSession).deadline = some (17 + (3000 : Int) * 1000) ∧
    (tickInterval 17 (startTimer 17 defaultSession)).timeLeft = (3000 : Int) := by
  have h := c6_start_sets_deadline defaultSession 17 rfl (by decide) (by decide)
  exact ⟨h.2.2.1, h.2.2.2⟩

/-- C3 counterexample: in the second variant, completion of a break
interval requests a looping tone (playSound(true)), not a one-shot
(non-looping) one, at this concrete reachable break session. -/
theorem c3_counterexample :
    (handleTimerCompletionV
      { defaultSession with mode := "break", status := "running", timeLeft := 0, deadline := some 99 }).2
        = some true ∧
    (handleTimerCompletionV
      { defaultSession with mode := "break", status := "running", timeLeft := 0, deadline := some 99 }).2
        ≠ some false := by
  decide

/-- C3 amended: completion of a focus interval switches mode to break,
sets the fixed focus-finished message and timeLeft = breakDuration * 60
(the second variant first resets breakDuration to 10); completion of a
break interval switches mode to focus and sets timeLeft =
focusDuration * 60 — with a one-shot tone and the fixed break-finished
message in the main variant, and with a looping tone, durations reset to
30/10 and a cleared message in the second variant. -/
theorem c3_completion_both_variants (s : Session) :
    (s.mode = "focus" →
      handleTimerCompletion s =
        ({ s with
            deadline := none, status := "idle", mode := "break",
            completionMessage := "Foco finalizado",
            timeLeft := s.breakDuration * 60 }, none)) ∧
    (s.mode ≠ "focus" →
      handleTimerCompletion s =
        ({ s with
            deadline := none, status := "idle", mode := "focus",
            completionMessage := "Fim da pausa",
            timeLeft := s.focusDuration * 60 }, some false)) ∧
    (s.mode = "focus" →
      handleTimerCompletionV s =
        ({ s with
            deadline := none, status := "idle", breakDuration := 10,
            mode := "break", completionMessage := "Foco finalizado",
            timeLeft := 10 * 60 }, none)) ∧
    (s.mode ≠ "focus" →
      handleTimerCompletionV s =
        ({ s with
            deadline := none, status := "idle", focusDuration := 30,
            breakDuration := 10, mode := "focus", completionMessage := "",
            timeLeft := 30 * 60 }, some true)) := by
  refine ⟨fun h => ?_, fun h => ?_, fun h => ?_, fun h => ?_⟩
  · simp [handleTimerCompletion, h]
  · simp [handleTimerCompletion, h]
  · simp [handleTimerCompletionV, h]
  · simp [handleTimerCompletionV, h]

theorem c3_witness :
    handleTimerCompletion defaultSession =
      ({ defaultSession with
          deadline := none, status := "idle", mode := "break",
          completionMessage := "Foco finalizado",
          timeLeft := defaultSession.breakDuration * 60 }, none) ∧
    handleTimerCompletionV { defaultSession with mode := "break" } =
      ({ { defaultSession with mode := "break" } with
          deadline := none, status := "idle",
          focusDuration := 30, breakDuration := 10, mode := "focus",
          completionMessage := "", timeLeft := 30 * 60 }, some true) :=
  ⟨(c3_completion_both_variants defaultSession).1 rfl,
   (c3_completion_both_variants { defaultSession with mode := "break" }).2.2.2 (by decide)⟩

/-- C9 counterexample: the stored value need not be a valid Session for
the key to survive — a persisted JSON value that is not an object (for
example the string "5") parses fine, is coerced field by field, and the
persisted key is NOT removed, while the claim requires removal for every
snapshot that is not a valid Session. -/
theorem c9_counterexample :
    (loadEffect StoredState.nonObject 1 defaultSession).2 = false ∧
    (loadEffect StoredState.nonObject 1 defaultSession).1 = defaultSession := by
  decide

/-- C9 amended: a persisted snapshot on which deserialization throws
(invalid JSON, or the JSON value null whose first property access
throws) is discarded: the state is left untouched (the defaults, on
mount) and the persisted key is removed; a parsed non-object JSON value
is instead coerced field by field without removing the key, which still
leaves the default session in memory. -/
theorem c9_malformed_load (s : Session) (now : Int) :
    loadEffect StoredState.invalidJson now s = (s, true) ∧
    loadEffect StoredState.jnull now s = (s, true) ∧
    (loadEffect StoredState.nonObject now s).2 = false ∧
    (loadEffect StoredState.nonObject now defaultSession).1 = defaultSession :=
  ⟨rfl, rfl, rfl, rfl⟩

/-- C2: when a running session has timeLeft at 0 the timer effect performs
the completion transition exactly once — it fires on that run (never
zero), leaves status idle with the deadline cleared, and a re-run of the
effect on the resulting state performs no further transition (never more
than one); and loading a persisted running snapshot whose deadline has
already passed produces exactly such a running state with timeLeft 0,
to be completed by that same effect. -/
theorem c2_exactly_one_completion (s : Session) (r : RawSnapshot) (now d : Int)
    (h1 : s.status = "running") (h2 : s.timeLeft ≤ 0)
    (hr1 : r.status = some "running") (hr2 : r.deadline = some d)
    (hd0 : 0 < d) (hexp : d ≤ now) :
    (timerEffect s).2.2 = true ∧
    (timerEffect s).1.status = "idle" ∧
    (timerEffect s).1.deadline = none ∧
    timerEffect (timerEffect s).1 = ((timerEffect s).1, none, false) ∧
    (loadRecord r now defaultSession).status = "running" ∧
    (loadRecord r now defaultSession).timeLeft = 0 := by
  have hg : s.timeLeft ≤ 0 ∧ s.status = "running" := ⟨h2, h1⟩
  have hcomp : (handleTimerCompletion s).1.status = "idle" ∧
      (handleTimerCompletion s).1.deadline = none := by
    unfold handleTimerCompletion
    by_cases hm : s.mode = "focus" <;> simp [hm]
  have h3 : timerEffect s = ((handleTimerCompletion s).1, (handleTimerCompletion s).2, true) := by
    unfold timerEffect
    rw [if_pos hg]
  have hload := loadRecord_running r now d defaultSession hr1 hr2 (by omega)
  refine ⟨by rw [h3], by rw [h3]; exact hcomp.1, by rw [h3]; exact hcomp.2, ?_, hload.1, ?_⟩
  · rw [h3]
    show timerEffect (handleTimerCompletion s).1 = _
    unfold timerEffect
    rw [if_neg]
    intro hcontra
    rw [hcomp.1] at hcontra
    exact absurd hcontra.2 (by decide)
  · rw [hload.2.2, if_neg (by omega)]

theorem c2_witness :
    (timerEffect { defaultSession with status := "running", timeLeft := 0, deadline := some 5 }).2.2 = true ∧
    (loadRecord { emptyRaw with status := some "running", deadline := some 5 } 7 defaultSession).timeLeft = 0 := by
  have h := c2_exactly_one_completion
    { defaultSession with status := "running", timeLeft := 0, deadline := some 5 }
    { emptyRaw with status := some "running", deadline := some 5 }
    7 5 rfl (by decide) rfl rfl (by decide) (by decide)
  exact ⟨h.1, h.2.2.2.2.2⟩

/-- C4: loading a persisted running snapshot whose deadline encodes
`original` seconds remaining at save time `t0`, after `delta` whole
seconds of wall-clock time, recomputes timeLeft = max 0 (original -
delta) from the deadline against the current clock, and the stored
timeLeft field has no influence on the result. -/
theorem c4_load_running_recompute (r : RawSnapshot) (t0 original delta : Int)
    (hst : r.status = some "running") (hd : r.deadline = some (t0 + original * 1000))
    (ht0 : 0 < t0) (h0 : 0 < original) (hdel : 0 ≤ delta) :
    (loadRecord r (t0 + delta * 1000) defaultSession).timeLeft = max 0 (original - delta) ∧
    ∀ x : Option Int,
      (loadRecord { r with timeLeft := x } (t0 + delta * 1000) defaultSession).timeLeft
        = max 0 (original - delta) := by
  have key : ∀ r2 : RawSnapshot, r2.status = some "running" →
      r2.deadline = some (t0 + original * 1000) →
      (loadRecord r2 (t0 + delta * 1000) defaultSession).timeLeft = max 0 (original - delta) := by
    intro r2 h1 h2
    have hd0 : t0 + original * 1000 ≠ 0 := by omega
    have h3 := (loadRecord_running r2 (t0 + delta * 1000) (t0 + original * 1000)
      defaultSession h1 h2 hd0).2.2
    rw [h3]
    have h4 : t0 + original * 1000 - (t0 + delta * 1000) = (original - delta) * 1000 := by ring
    rw [h4]
    by_cases hc : (original - delta) * 1000 > 0
    · rw [if_pos hc, jsRound1000_mul1000]
      omega
    · rw [if_neg hc]
      omega
  exact ⟨key r hst hd, fun x => key { r with timeLeft := x } hst hd⟩

theorem c4_witness :
    (loadRecord { emptyRaw with status := some "running", deadline := some (1000 + 10 * 1000) }
      (1000 + 3 * 1000) defaultSession).timeLeft = max 0 ((10 : Int) - 3) :=
  (c4_load_running_recompute
    { emptyRaw with status := some "running", deadline := some (1000 + 10 * 1000) }
    1000 10 3 rfl rfl (by decide) (by decide) (by decide)).1

/-- C7 counterexample: the input "-5" parses to -5, which is truthy in
JS, so `parseInt(value, 10) || 1` keeps it: the stored focus duration
becomes -5 (and, idle in focus mode, timeLeft becomes -300) instead of
being coerced to the claimed minimum of 1. -/
theorem c7_counterexample :
    (updateFocusDuration "-5" defaultSession).focusDuration = -5 ∧
    ¬ (1 ≤ (updateFocusDuration "-5" defaultSession).focusDuration) := by
  decide

/-- C7 amended: the input is parsed as an integer; non-numeric (NaN) and
zero results are coerced to 1, but a negative parse result is kept
unchanged (no minimum is enforced for negatives).  The stored duration
is updated to the resulting value, and timeLeft becomes value * 60
exactly when status = idle and mode matches the edited duration; all
other fields are untouched. -/
theorem c7_duration_edit (input : String) (s : Session) :
    (jsParseInt input = none → jsParseIntOr1 input = 1) ∧
    (jsParseInt input = some 0 → jsParseIntOr1 input = 1) ∧
    (∀ n : Int, jsParseInt input = some n → n ≠ 0 → jsParseIntOr1 input = n) ∧
    (updateFocusDuration input s).focusDuration = jsParseIntOr1 input ∧
    (updateFocusDuration input s).timeLeft =
      (if s.status = "idle" ∧ s.mode = "focus" then jsParseIntOr1 input * 60 else s.timeLeft) ∧
    (updateFocusDuration input s).breakDuration = s.breakDuration ∧
    (updateFocusDuration input s).mode = s.mode ∧
    (updateFocusDuration input s).status = s.status ∧
    (updateFocusDuration input s).deadline = s.deadline ∧
    (updateFocusDuration input s).completionMessage = s.completionMessage ∧
    (updateBreakDuration input s).breakDuration = jsParseIntOr1 input ∧
    (updateBreakDuration input s).timeLeft =
      (if s.status = "idle" ∧ s.mode = "break" then jsParseIntOr1 input * 60 else s.timeLeft) ∧
    (updateBreakDuration input s).focusDuration = s.focusDuration := by
  refine ⟨fun h => ?_, fun h => ?_, fun n h hn => ?_,
    rfl, rfl, rfl, rfl, rfl, rfl, rfl, rfl, rfl, rfl⟩
  · unfold jsParseIntOr1
    rw [h]
  · unfold jsParseIntOr1
    rw [h]
    norm_num
  · unfold jsParseIntOr1
    rw [h]
    simp [hn]

theorem c7_witness :
    jsParseIntOr1 "abc" = 1 ∧ jsParseIntOr1 "0" = 1 ∧ jsParseIntOr1 "-5" = -5 ∧
    (updateFocusDuration "7" defaultSession).focusDuration = jsParseIntOr1 "7" :=
  ⟨(c7_duration_edit "abc" defaultSession).1 (by decide),
   (c7_duration_edit "0" defaultSession).2.1 (by decide),
   (c7_duration_edit "-5" defaultSession).2.2.1 (-5) (by decide) (by decide),
   (c7_duration_edit "7" defaultSession).2.2.2.1⟩

/-- C8 counterexample: from the default (reachable) idle focus session,
editing the focus duration to "-5" sets timeLeft to -300, a negative
value, refuting the claim that timeLeft stays non-negative after every
operation. -/
theorem c8_counterexample :
    (updateFocusDuration "-5" defaultSession).timeLeft = -300 ∧
    (updateFocusDuration "-5" defaultSession).timeLeft < 0 := by
  decide

/-- C8 amended: timeLeft stays non-negative under start, pause/resume,
resets, completion, the timer effect, the interval recomputation (which
clamps at zero), loading a snapshot whose stored timeLeft and
focusDuration fields are non-negative, and duration edits whose parsed
value is at least 1 — but not under a duration edit whose input parses
to a negative integer, which stores the negative value directly. -/
theorem c8_timeleft_nonneg (s : Session) (now : Int) (r : RawSnapshot) (input : String)
    (hs : 0 ≤ s.timeLeft) (hf : 0 ≤ s.focusDuration) (hb : 0 ≤ s.breakDuration)
    (hrt : ∀ t, r.timeLeft = some t → 0 ≤ t)
    (hrf : ∀ n, r.focusDuration = some n → 0 ≤ n)
    (hv : 1 ≤ jsParseIntOr1 input) :
    0 ≤ (startTimer now s).timeLeft ∧
    0 ≤ (togglePause now s).timeLeft ∧
    0 ≤ (resetTimer s).timeLeft ∧
    0 ≤ (resetToStart s).timeLeft ∧
    0 ≤ (handleTimerCompletion s).1.timeLeft ∧
    0 ≤ (timerEffect s).1.timeLeft ∧
    0 ≤ (tickInterval now s).timeLeft ∧
    0 ≤ (loadRecord r now s).timeLeft ∧
    0 ≤ (updateFocusDuration input s).timeLeft ∧
    0 ≤ (updateBreakDuration input s).timeLeft := by
  have hcomp : 0 ≤ (handleTimerCompletion s).1.timeLeft := by
    unfold handleTimerCompletion
    by_cases hm : s.mode = "focus" <;> simp [hm] <;> omega
  refine ⟨hs, ?_, ?_, by show 0 ≤ s.focusDuration * 60; omega, hcomp, ?_, ?_, ?_, ?_, ?_⟩
  · unfold togglePause
    by_cases h1 : s.status = "running"
    · simp [h1]; exact hs
    · by_cases h2 : s.status = "paused" <;> simp [h1, h2] <;> exact hs
  · show 0 ≤ (if s.mode = "focus" then s.focusDuration else s.breakDuration) * 60
    by_cases hm : s.mode = "focus" <;> simp [hm] <;> omega
  · unfold timerEffect
    by_cases hg : s.timeLeft ≤ 0 ∧ s.status = "running"
    · simp only [if_pos hg]; exact hcomp
    · simp only [if_neg hg]; exact hs
  · unfold tickInterval
    cases hsd : s.deadline with
    | none => exact hs
    | some d =>
        by_cases hg : s.status = "running" ∧ d ≠ 0
        · simp only [if_pos hg]
          show 0 ≤ max 0 (jsRound1000 (d - now))
          exact le_max_left 0 _
        · simp only [if_neg hg]; exact hs
  · unfold loadRecord
    cases hsd : r.deadline with
    | none =>
        show (0 : Int) ≤ (match r.timeLeft with
          | some t => t
          | none => orIntTruthy r.focusDuration 50 * 60)
        cases hrl : r.timeLeft with
        | some t => exact hrt t hrl
        | none =>
            have := orIntTruthy_nonneg r.focusDuration 50 (by omega) hrf
            simp only
            omega
    | some d =>
        by_cases hg : r.status = some "running" ∧ d ≠ 0
        · simp only [if_pos hg]
          by_cases hc : d - now > 0
          · simp only [if_pos hc]
            exact jsRound1000_nonneg _ (by omega)
          · simp only [if_neg hc]
            exact le_refl 0
        · simp only [if_neg hg]
          show (0 : Int) ≤ (match r.timeLeft with
            | some t => t
            | none => orIntTruthy r.focusDuration 50 * 60)
          cases hrl : r.timeLeft with
          | some t => exact hrt t hrl
          | none =>
              have := orIntTruthy_nonneg r.focusDuration 50 (by omega) hrf
              simp only
              omega
  · show 0 ≤ (if s.status = "idle" ∧ s.mode = "focus" then jsParseIntOr1 input * 60 else s.timeLeft)
    by_cases hc : s.status = "idle" ∧ s.mode = "focus" <;> simp [hc] <;> omega
  · show 0 ≤ (if s.status = "idle" ∧ s.mode = "break" then jsParseIntOr1 input * 60 else s.timeLeft)
    by_cases hc : s.status = "idle" ∧ s.mode = "break" <;> simp [hc] <;> omega

theorem c8_witness :
    0 ≤ (tickInterval 1 defaultSession).timeLeft ∧
    0 ≤ (loadRecord emptyRaw 1 defaultSession).timeLeft ∧
    0 ≤ (updateFocusDuration "5" defaultSession).timeLeft := by
  have h := c8_timeleft_nonneg defaultSession 1 emptyRaw "5" (by decide) (by decide) (by decide)
    (fun t ht => by simp [emptyRaw] at ht) (fun n hn => by simp [emptyRaw] at hn) (by decide)
  exact ⟨h.2.2.2.2.2.2.1, h.2.2.2.2.2.2.2.1, h.2.2.2.2.2.2.2.2.1⟩

theorem loadRecord_nodeadline (r : RawSnapshot) (now : Int) (s : Session)
    (hd : r.deadline = none) :
    (loadRecord r now s).status = orStrTruthy r.status "idle" ∧
    (loadRecord r now s).deadline = none := by
  unfold loadRecord
  rw [hd]
  exact ⟨rfl, rfl⟩

theorem loadRecord_snapshot_inv (s : Session) (now : Int)
    (hs : DeadlineInv s) (hp : DeadlinePos s) :
    DeadlineInv (loadRecord (snapshotOf s) now defaultSession) ∧
    DeadlinePos (loadRecord (snapshotOf s) now defaultSession) := by
  cases hsd : s.deadline with
  | some d =>
      have hr : s.status = "running" := hs.mp (by rw [hsd]; rfl)
      have hdp : 0 < d := hp d hsd
      have h1 : (snapshotOf s).status = some "running" := by
        show some s.status = some "running"
        rw [hr]
      have h2 : (snapshotOf s).deadline = some d := hsd
      have h := loadRecord_running (snapshotOf s) now d defaultSession h1 h2 (by omega)
      constructor
      · unfold DeadlineInv
        rw [h.1, h.2.1]
        simp
      · intro d2 hd2
        rw [h.2.1] at hd2
        injection hd2 with h3
        omega
  | none =>
      have hnr : s.status ≠ "running" := by
        intro hr
        have hcontra := hs.mpr hr
        rw [hsd] at hcontra
        simp at hcontra
      have h := loadRecord_nodeadline (snapshotOf s) now defaultSession hsd
      constructor
      · unfold DeadlineInv
        rw [h.1, h.2]
        simp only [Option.isSome_none]
        constructor
        · intro hfalse
          exact absurd hfalse (by decide)
        · intro hcontra
          exfalso
          have hc2 : (if s.status = "" then "idle" else s.status) = "running" := hcontra
          by_cases hE : s.status = ""
          · rw [if_pos hE] at hc2
            exact absurd hc2 (by decide)
          · rw [if_neg hE] at hc2
            exact hnr hc2
      · intro d2 hd2
        rw [h.2] at hd2
        exact absurd hd2 (by simp)

/-- C1: in every session satisfying the deadline-iff-running biconditional
(with deadlines positive timestamps, as produced by Date.now() + timeLeft
* 1000 at a positive clock), every operation — start, pause/resume toggle,
reset, reset-to-default, completion handling, the timer effect, the
interval recomputation, duration edits, and loading the saved snapshot of
the session — preserves the biconditional (and deadline positivity). -/
theorem c1_deadline_iff_running (s : Session) (now : Int) (input : String)
    (hs : DeadlineInv s) (hp : DeadlinePos s) (hdd : 0 < now + s.timeLeft * 1000) :
    (DeadlineInv (startTimer now s) ∧ DeadlinePos (startTimer now s)) ∧
    (DeadlineInv (togglePause now s) ∧ DeadlinePos (togglePause now s)) ∧
    (DeadlineInv (resetTimer s) ∧ DeadlinePos (resetTimer s)) ∧
    (DeadlineInv (resetToStart s) ∧ DeadlinePos (resetToStart s)) ∧
    (DeadlineInv (handleTimerCompletion s).1 ∧ DeadlinePos (handleTimerCompletion s).1) ∧
    (DeadlineInv (timerEffect s).1 ∧ DeadlinePos (timerEffect s).1) ∧
    (DeadlineInv (tickInterval now s) ∧ DeadlinePos (tickInterval now s)) ∧
    (DeadlineInv (updateFocusDuration input s) ∧ DeadlinePos (updateFocusDuration input s)) ∧
    (DeadlineInv (updateBreakDuration input s) ∧ DeadlinePos (updateBreakDuration input s)) ∧
    (DeadlineInv (loadEffect (StoredState.record (snapshotOf s)) now defaultSession).1 ∧
      DeadlinePos (loadEffect (StoredState.record (snapshotOf s)) now defaultSession).1) := by
  have hcomp : DeadlineInv (handleTimerCompletion s).1 ∧ DeadlinePos (handleTimerCompletion s).1 := by
    unfold handleTimerCompletion
    by_cases hm : s.mode = "focus"
    · rw [if_pos hm]
      exact ⟨by simp [DeadlineInv], fun d hd => absurd hd (by simp)⟩
    · rw [if_neg hm]
      exact ⟨by simp [DeadlineInv], fun d hd => absurd hd (by simp)⟩
  have htick : (tickInterval now s).deadline = s.deadline ∧ (tickInterval now s).status = s.status := by
    unfold tickInterval
    split
    · split
      · exact ⟨rfl, rfl⟩
      · exact ⟨rfl, rfl⟩
    · exact ⟨rfl, rfl⟩
  refine ⟨⟨by simp [DeadlineInv, startTimer], ?_⟩, ?_, ?_, ?_, hcomp, ?_, ?_, ⟨hs, hp⟩, ⟨hs, hp⟩, ?_⟩
  · intro d hd
    injection hd with h1
    omega
  · unfold togglePause
    by_cases h1 : s.status = "running"
    · rw [if_pos h1]
      exact ⟨by simp [DeadlineInv], fun d hd => absurd hd (by simp)⟩
    · rw [if_neg h1]
      by_cases h2 : s.status = "paused"
      · rw [if_pos h2]
        refine ⟨by simp [DeadlineInv], fun d hd => ?_⟩
        injection hd with h3
        omega
      · rw [if_neg h2]
        exact ⟨hs, hp⟩
  · exact ⟨by simp [DeadlineInv, resetTimer], fun d hd => absurd hd (by simp [resetTimer])⟩
  · exact ⟨by simp [DeadlineInv, resetToStart], fun d hd => absurd hd (by simp [resetToStart])⟩
  · unfold timerEffect
    by_cases hg : s.timeLeft ≤ 0 ∧ s.status = "running"
    · rw [if_pos hg]
      exact hcomp
    · rw [if_neg hg]
      exact ⟨hs, hp⟩
  · constructor
    · unfold DeadlineInv
      rw [htick.1, htick.2]
      exact hs
    · intro d hd
      rw [htick.1] at hd
      exact hp d hd
  · exact loadRecord_snapshot_inv s now hs hp

theorem c1_witness :
    DeadlineInv (startTimer 1 defaultSession) ∧ DeadlinePos (startTimer 1 defaultSession) := by
  have h := c1_deadline_iff_running defaultSession 1 "5" (by decide)
    (fun d hd => by simp [defaultSession] at hd) (by decide)
  exact h.1
